import Mathlib

/-!
Shallow embedding of the SAP MCP tool-calling adapter:
the direct SAP path (`src/services/sap-service.js` class `SAPService`,
`src/server/mcp-server.js` class `SAPMCPServer`, `src/utils/config.js`),
and the BTP destination path (`BTPDestinationService` with the
`list_destinations` and `query_northwind` tools of the HTTP variant).

Network I/O is modelled by oracle functions passed to each operation and
an explicit trace of issued requests; a thrown JS exception is modelled
as the error branch of `Except`.  JS string interpolation of numbers is
modelled by a fuel-based decimal printer `natStr`.
-/

namespace SAPMCP

/-- Decimal rendering of a nonnegative integer, digit list form; fuel-based
so that it is structurally recursive (fuel `n + 1` always suffices). -/
def natCharsAux : Nat → Nat → List Char
  | 0, _ => []
  | fuel + 1, n =>
    if n < 10 then [Nat.digitChar n]
    else natCharsAux fuel (n / 10) ++ [Nat.digitChar (n % 10)]

/-- JS template interpolation of a nonnegative integer Number. -/
def natStr (n : Nat) : String := String.mk (natCharsAux (n + 1) n)

/-- JS `x || dflt` for an optional string property: `undefined` and `""` are falsy. -/
def jsOrStr (v : Option String) (dflt : String) : String :=
  match v with
  | none => dflt
  | some s => if s = "" then dflt else s

/-- JS template interpolation of a possibly-undefined string value. -/
def jsInterp (v : Option String) : String := v.getD "undefined"

/-- JS template interpolation of a possibly-undefined number value. -/
def jsInterpNat (v : Option Nat) : String :=
  match v with
  | none => "undefined"
  | some n => natStr n

/-- Substring occurrence: the characters of `pat` occur contiguously in `s`. -/
def strContains (s pat : String) : Prop := pat.data <:+: s.data

theorem strContains_mem {s pat : String} {c : Char} (h : strContains s pat)
    (hc : c ∈ pat.data) : c ∈ s.data := h.subset hc

theorem strContains_of_data {s pre pat suf : String}
    (h : pre.data ++ pat.data ++ suf.data = s.data) : strContains s pat :=
  ⟨pre.data, suf.data, h⟩

theorem str_assoc (a b c : String) : a ++ b ++ c = a ++ (b ++ c) :=
  String.ext (by simp [String.data_append])

theorem digitChar_bounds (d : Nat) (h : d < 10) :
    48 ≤ (Nat.digitChar d).toNat ∧ (Nat.digitChar d).toNat ≤ 57 := by
  interval_cases d <;> decide

theorem natCharsAux_bounds (fuel : Nat) :
    ∀ n, ∀ c ∈ natCharsAux fuel n, 48 ≤ c.toNat ∧ c.toNat ≤ 57 := by
  induction fuel with
  | zero => intro n c hc; simp [natCharsAux] at hc
  | succ k ih =>
    intro n c hc
    simp only [natCharsAux] at hc
    split at hc
    · simp only [List.mem_singleton] at hc
      subst hc
      exact digitChar_bounds n (by omega)
    · rw [List.mem_append, List.mem_singleton] at hc
      rcases hc with hc | hc
      · exact ih (n / 10) c hc
      · subst hc
        exact digitChar_bounds (n % 10) (Nat.mod_lt n (by omega))

theorem natStr_bounds (n : Nat) :
    ∀ c ∈ (natStr n).data, 48 ≤ c.toNat ∧ c.toNat ≤ 57 :=
  natCharsAux_bounds (n + 1) n

/-! ## Query Builder (SAPService.getProducts, sap-service.js lines 55-67)

`let url = productService + "/ProductSet"; url += "?$top=" + top + "&$skip=" +
skip + "&$format=json"; if (search) url += "&$filter=contains(ProductDescription,'"
+ search + "')"` — the search value is interpolated verbatim. -/

/-- The query-string suffix built by `SAPService.getProducts`.  An omitted
search argument reaches the method as the default parameter `''`. -/
def productQuery (top skip : Nat) (search : String) : String :=
  let q := "?$top=" ++ natStr top ++ "&$skip=" ++ natStr skip ++ "&$format=json"
  if search = "" then q
  else q ++ "&$filter=contains(ProductDescription,\x27" ++ search ++ "\x27)"

theorem productQuery_of_empty (top skip : Nat) :
    productQuery top skip "" =
      "?$top=" ++ natStr top ++ "&$skip=" ++ natStr skip ++ "&$format=json" := rfl

theorem productQuery_of_nonempty (top skip : Nat) (search : String) (h : ¬ search = "") :
    productQuery top skip search =
      "?$top=" ++ natStr top ++ "&$skip=" ++ natStr skip ++ "&$format=json" ++
        "&$filter=contains(ProductDescription,\x27" ++ search ++ "\x27)" := by
  simp [productQuery, h]

theorem no_ell_no_filter (s : String) (h : ¬ ('l' ∈ s.data)) :
    ¬ strContains s "$filter" := by
  intro hc
  exact h (strContains_mem hc (by decide))

theorem base_query_no_ell (top skip : Nat) :
    ¬ ('l' ∈ ("?$top=" ++ natStr top ++ "&$skip=" ++ natStr skip ++
        "&$format=json").data) := by
  intro hmem
  simp only [String.data_append, List.mem_append] at hmem
  rcases hmem with ((hmem | hmem) | hmem) | hmem
  · rcases hmem with hmem | hmem
    · exact absurd hmem (by decide)
    · have hb := natStr_bounds top 'l' hmem
      have hl : ('l').toNat = 108 := rfl
      omega
  · exact absurd hmem (by decide)
  · have hb := natStr_bounds skip 'l' hmem
    have hl : ('l').toNat = 108 := rfl
    omega
  · exact absurd hmem (by decide)

/-- C5: for every top in [1,100], every skip, and every search string, the
query built by `SAPService.getProducts` is the base string with exactly
`$top=<top>` and `$skip=<skip>` serialized, followed by a remainder, and it
contains `$filter` iff the search string is non-empty. -/
theorem productQuery_top_skip_filter (top skip : Nat) (search : String)
    (h1 : 1 ≤ top) (h2 : top ≤ 100) :
    (∃ rest, productQuery top skip search =
      "?$top=" ++ natStr top ++ "&$skip=" ++ natStr skip ++ "&$format=json" ++ rest) ∧
    (strContains (productQuery top skip search) "$filter" ↔ search ≠ "") := by
  by_cases hs : search = ""
  · subst hs
    constructor
    · refine ⟨"", ?_⟩
      rw [productQuery_of_empty]
      exact String.ext (by simp [String.data_append])
    · rw [productQuery_of_empty]
      simp only [ne_eq, not_true_eq_false, iff_false]
      exact no_ell_no_filter _ (base_query_no_ell top skip)
  · constructor
    · refine ⟨"&$filter=contains(ProductDescription,\x27" ++ search ++ "\x27)", ?_⟩
      rw [productQuery_of_nonempty top skip search hs]
      exact String.ext (by simp [String.data_append])
    · simp only [ne_eq, hs, not_false_eq_true, iff_true]
      rw [productQuery_of_nonempty top skip search hs]
      exact @strContains_of_data _
        ("?$top=" ++ natStr top ++ "&$skip=" ++ natStr skip ++ "&$format=json" ++ "&")
        _ ("=contains(ProductDescription,\x27" ++ search ++ "\x27)")
        (by simp only [String.data_append]; simp [List.append_assoc])

/-- C5 witness: the theorem applied at top = 10, skip = 0, empty search. -/
theorem productQuery_top_skip_filter_witness :
    (∃ rest, productQuery 10 0 "" =
      "?$top=" ++ natStr 10 ++ "&$skip=" ++ natStr 0 ++ "&$format=json" ++ rest) ∧
    (strContains (productQuery 10 0 "") "$filter" ↔ ("" : String) ≠ "") :=
  productQuery_top_skip_filter 10 0 "" (by decide) (by decide)

/-- C3: the search value is interpolated verbatim (no URL-encoding) into the
filter expression — a raw space and a raw quote pass straight into the query
string, so the emitted query contains the unescaped search text. -/
theorem productQuery_interpolates_search_raw :
    productQuery 10 0 "O\x27Hara Ltd" =
      "?$top=10&$skip=0&$format=json&$filter=contains(ProductDescription,\x27O\x27Hara Ltd\x27)" ∧
    strContains (productQuery 10 0 "O\x27Hara Ltd") "O\x27Hara Ltd" := by
  constructor
  · decide
  · exact @strContains_of_data _
      "?$top=10&$skip=0&$format=json&$filter=contains(ProductDescription,\x27"
      _ "\x27)" (by decide)

/-! ## Data model: protocol result, network trace, configuration -/

/-- One MCP content item, `{type: 'text', text: ...}`. -/
structure ContentItem where
  type : String
  text : String
deriving DecidableEq

/-- The MCP tool result envelope `{content: [...]}`. -/
structure ToolResult where
  content : List ContentItem
deriving DecidableEq

/-- The result shape every handler builds: one text content item. -/
def mkText (s : String) : ToolResult := ⟨[⟨"text", s⟩]⟩

/-- One issued HTTP request (method and URL). -/
structure NetCall where
  method : String
  url : String
deriving DecidableEq

/-- The SAP connection settings built by `Config.sap` (config.js). -/
structure SapConfig where
  baseUrl : Option String
  username : Option String
  password : Option String
  client : String
  productService : String
deriving DecidableEq

/-- Environment variables required by `Config.validate`. -/
def requiredEnvVars : List String := ["SAP_BASE_URL", "SAP_USERNAME", "SAP_PASSWORD"]

/-- `Config.validate` (config.js): throws when a required variable is absent
or empty (JS falsy check `!process.env[key]`). -/
def configValidate (env : String → Option String) : Except String Unit :=
  let missing := requiredEnvVars.filter (fun k => jsOrStr (env k) "" = "")
  if missing.length > 0 then
    .error ("Missing required environment variables: " ++ String.intercalate ", " missing)
  else .ok ()

/-- `Config.sap` (config.js): the getter over `process.env`. -/
def configSap (env : String → Option String) : SapConfig :=
  ⟨env "SAP_BASE_URL", env "SAP_USERNAME", env "SAP_PASSWORD",
   jsOrStr (env "SAP_CLIENT") "100",
   jsOrStr (env "SAP_PRODUCT_SERVICE") "/sap/opu/odata/sap/API_PRODUCT_SRV"⟩

/-- The `https.Agent` options of `createAxiosClient` (sap-service.js lines 12-16). -/
structure HttpsAgentOptions where
  rejectUnauthorized : Bool
  secureProtocol : String
deriving DecidableEq

/-- The axios client options of `createAxiosClient` (sap-service.js lines 18-30). -/
structure AxiosConfig where
  baseURL : Option String
  timeout : Nat
  httpsAgent : HttpsAgentOptions
  authUsername : Option String
  authPassword : Option String
deriving DecidableEq

/-- `SAPService.createAxiosClient`: the client configuration it constructs.
The `rejectUnauthorized: false` and `secureProtocol` values are literals in
the source; no configuration value flows into the agent options. -/
def createAxiosClient (cfg : SapConfig) : AxiosConfig :=
  ⟨cfg.baseUrl, 30000, ⟨false, "TLSv1_2_method"⟩, cfg.username, cfg.password⟩

/-- C2 (code divergence): TLS certificate verification is unconditionally
disabled — `rejectUnauthorized` is the literal `false` for every
configuration, and the agent options are independent of the configuration,
so no named flag (with verification on by default) exists. -/
theorem createAxiosClient_disables_tls_unconditionally :
    (∀ cfg : SapConfig, (createAxiosClient cfg).httpsAgent.rejectUnauthorized = false) ∧
    (∀ cfg cfg' : SapConfig,
      (createAxiosClient cfg).httpsAgent = (createAxiosClient cfg').httpsAgent) := by
  exact ⟨fun _ => rfl, fun _ _ => rfl⟩

/-! ## Backend envelope and response renderers (mcp-server.js) -/

/-- A backend response envelope: `dResults` models `data.d?.results`
(absent when `d` or `d.results` is missing), `value` models `data.value`. -/
structure Envelope (α : Type) where
  dResults : Option (List α)
  value : Option (List α)
deriving DecidableEq

/-- Row extraction `data.d?.results || data.value || []`: `d.results` first
(any array, also an empty one, is truthy), then `value`, else `[]`. -/
def extractRows {α : Type} (e : Envelope α) : List α :=
  match e.dResults with
  | some rows => rows
  | none =>
    match e.value with
    | some rows => rows
    | none => []

/-- A product row; every field may be absent on the wire. -/
structure Product where
  ProductID : Option String
  Description : Option String
  Category : Option String
deriving DecidableEq

/-- A sales-order row. Numeric fields are modelled by their interpolated text. -/
structure Order where
  SalesOrderID : Option String
  CustomerID : Option String
  NetAmount : Option String
  CurrencyCode : Option String
deriving DecidableEq

/-- One bulleted product line (mcp-server.js line 81).  The leading bytes are
the three characters U+00E2 U+20AC U+00A2 — the file stores a double-encoded
bullet, not U+2022. -/
def renderProductLine (p : Product) : String :=
  "â€¢ " ++ jsInterp p.ProductID ++ " - " ++
    jsOrStr p.Description "No description" ++ " (" ++ jsOrStr p.Category "N/A" ++ ")"

/-- The non-empty product listing text (mcp-server.js line 87). -/
def renderProductsText (skip : Nat) (products : List Product) : String :=
  "Products " ++ natStr (skip + 1) ++ " to " ++ natStr (skip + products.length) ++
    ":\n\n" ++ String.intercalate "\n" (products.map renderProductLine) ++
    "\n\nTotal: " ++ natStr products.length ++ " products"

/-- One bulleted sales-order line (mcp-server.js line 129), same
double-encoded bullet bytes as the product line. -/
def renderOrderLine (o : Order) : String :=
  "â€¢ " ++ jsInterp o.SalesOrderID ++ " - Customer: " ++
    jsInterp o.CustomerID ++ " - Total: " ++ jsOrStr o.NetAmount "N/A" ++ " " ++
    jsOrStr o.CurrencyCode ""

/-- The non-empty sales-order listing text (mcp-server.js line 135). -/
def renderOrdersText (skip : Nat) (orders : List Order) : String :=
  "Sales Orders " ++ natStr (skip + 1) ++ " to " ++ natStr (skip + orders.length) ++
    ":\n\n" ++ String.intercalate "\n" (orders.map renderOrderLine) ++
    "\n\nTotal: " ++ natStr orders.length ++ " orders"

/-! ## SAPService and the stdio-variant tool handlers -/

/-- The axios error object reaching `formatError`: the optional provider
message `error.response?.data?.error?.message?.value`, the optional HTTP
status and status text, and the transport message. -/
structure AxiosError where
  sapMessage : Option String
  status : Option Nat
  statusText : Option String
  message : String
deriving DecidableEq

/-- `SAPService.formatError` (sap-service.js lines 44-52). -/
def formatError (e : AxiosError) : String :=
  jsOrStr e.sapMessage
    ("SAP API Error: " ++ jsInterpNat e.status ++ " " ++ jsInterp e.statusText ++
      " - " ++ e.message)

/-- The full URL `SAPService.getProducts` requests. -/
def productUrl (cfg : SapConfig) (top skip : Nat) (search : String) : String :=
  cfg.productService ++ "/ProductSet" ++ productQuery top skip search

/-- `SAPService.getProducts`: one GET through the axios client whose response
interceptor rethrows `formatError(error)` on failure. -/
def sapGetProducts (cfg : SapConfig)
    (get : String → Except AxiosError (Envelope Product))
    (top skip : Nat) (search : String) :
    Except String (Envelope Product) × List NetCall :=
  let url := productUrl cfg top skip search
  match get url with
  | .error e => (.error (formatError e), [⟨"GET", url⟩])
  | .ok data => (.ok data, [⟨"GET", url⟩])

/-- `SAPService.healthCheck` (sap-service.js lines 84-93): catches its own
errors and reports a status/message pair, never throwing. -/
def sapHealthCheck (cfg : SapConfig)
    (get : String → Except AxiosError (Envelope Product)) :
    (String × String) × List NetCall :=
  let url := cfg.productService ++ "/ProductSet?$top=1"
  match get url with
  | .ok _ => (("connected", "Successfully connected to SAP"), [⟨"GET", url⟩])
  | .error e =>
      (("error", "SAP connection failed: " ++ formatError e), [⟨"GET", url⟩])

/-- The `sap_health_check` tool handler (mcp-server.js lines 30-51).  Its
catch branch is dead because `healthCheck` never throws. -/
def sapHealthCheckHandler (cfg : SapConfig)
    (get : String → Except AxiosError (Envelope Product)) :
    ToolResult × List NetCall :=
  let (h, tr) := sapHealthCheck cfg get
  (mkText ("SAP Health Check:\nStatus: " ++ h.1 ++ "\nMessage: " ++ h.2), tr)

/-- The `get_products` tool handler (mcp-server.js lines 56-99).  The zod
layer supplies `top` and `skip` (defaults applied); `search` may be absent
and reaches the service method as the default parameter `''`. -/
def getProductsHandler (cfg : SapConfig)
    (get : String → Except AxiosError (Envelope Product))
    (top skip : Nat) (search : Option String) : ToolResult × List NetCall :=
  match sapGetProducts cfg get top skip (search.getD "") with
  | (.error e, tr) => (mkText ("Error fetching products: " ++ e), tr)
  | (.ok data, tr) =>
    let products := extractRows data
    if products.length = 0 then
      (mkText "No products found matching your criteria.", tr)
    else
      (mkText (renderProductsText skip products), tr)

/-- The method names class `SAPService` defines (sap-service.js): the
`getSalesOrders` block at lines 70-81 is commented out, and no method named
`get_sales_orders` exists anywhere in the class. -/
def sapServiceMethodNames : List String :=
  ["constructor", "createAxiosClient", "formatError", "getProducts", "healthCheck"]

/-- The JS property lookup `this.sapService.get_sales_orders`: the class
defines no such method, so the lookup yields `undefined` — modelled as
`none`.  (A defined method would be a function from `top`, `skip`,
`customerId` and the backend to an envelope result plus request trace.) -/
def sapService_get_sales_orders :
    Option (Nat → Nat → String → (String → Except AxiosError (Envelope Order)) →
      Except String (Envelope Order) × List NetCall) := none

/-- The TypeError message JS raises when the undefined property is called. -/
def salesOrdersTypeError : String :=
  "this.sapService.get_sales_orders is not a function"

/-- The `get_sales_orders` tool handler (mcp-server.js lines 103-147).
Calling the undefined `get_sales_orders` property throws a TypeError before
any request is issued; the catch renders it.  The rendering branches mirror
the source and are reachable only if the method existed. -/
def getSalesOrdersHandler
    (get : String → Except AxiosError (Envelope Order))
    (top skip : Nat) (customerId : Option String) : ToolResult × List NetCall :=
  match sapService_get_sales_orders with
  | none => (mkText ("Error fetching sales orders: " ++ salesOrdersTypeError), [])
  | some m =>
    match m top skip (customerId.getD "") get with
    | (.error e, tr) => (mkText ("Error fetching sales orders: " ++ e), tr)
    | (.ok data, tr) =>
      let orders := extractRows data
      if orders.length = 0 then
        (mkText "No sales orders found matching your criteria.", tr)
      else
        (mkText (renderOrdersText skip orders), tr)

/-- A sample configuration (all required settings present). -/
def sampleConfig : SapConfig :=
  ⟨some "https://sap.example.com", some "user", some "secret", "100",
   "/sap/opu/odata/sap/API_PRODUCT_SRV"⟩

/-- C6: whenever the extracted row list is empty — extraction reads
`d.results` first, then `value`, defaulting to `[]`, so `{d:{results:[]}}`,
`{value:[]}` and `{}` all extract to `[]` — the `get_products` handler
returns the fixed no-records message, not an empty bulleted list. -/
theorem extractRows_empty_renders_no_records (cfg : SapConfig)
    (top skip : Nat) (search : Option String) (e : Envelope Product)
    (h : extractRows e = []) :
    (extractRows (⟨some [], none⟩ : Envelope Product) = [] ∧
     extractRows (⟨none, some []⟩ : Envelope Product) = [] ∧
     extractRows (⟨none, none⟩ : Envelope Product) = []) ∧
    (getProductsHandler cfg (fun _ => .ok e) top skip search).1 =
      mkText "No products found matching your criteria." := by
  refine ⟨⟨rfl, rfl, rfl⟩, ?_⟩
  simp [getProductsHandler, sapGetProducts, h]

/-- C6 witness: the empty envelope `{}` at concrete arguments. -/
theorem extractRows_empty_renders_no_records_witness :
    (extractRows (⟨some [], none⟩ : Envelope Product) = [] ∧
     extractRows (⟨none, some []⟩ : Envelope Product) = [] ∧
     extractRows (⟨none, none⟩ : Envelope Product) = []) ∧
    (getProductsHandler sampleConfig (fun _ => .ok ⟨none, none⟩) 5 0 none).1 =
      mkText "No products found matching your criteria." :=
  extractRows_empty_renders_no_records sampleConfig 5 0 none ⟨none, none⟩ rfl

/-- C7: for every envelope with at least one extracted row and every skip,
both renderers report the row-list length as the count and state the range
from skip+1 to skip+length. -/
theorem render_reports_count_and_range (skip : Nat)
    (ep : Envelope Product) (eo : Envelope Order)
    (hp : extractRows ep ≠ []) (ho : extractRows eo ≠ []) :
    (∃ mid, renderProductsText skip (extractRows ep) =
      "Products " ++ natStr (skip + 1) ++ " to " ++
        natStr (skip + (extractRows ep).length) ++ ":\n\n" ++ mid ++
        "\n\nTotal: " ++ natStr (extractRows ep).length ++ " products") ∧
    (∃ mid, renderOrdersText skip (extractRows eo) =
      "Sales Orders " ++ natStr (skip + 1) ++ " to " ++
        natStr (skip + (extractRows eo).length) ++ ":\n\n" ++ mid ++
        "\n\nTotal: " ++ natStr (extractRows eo).length ++ " orders") :=
  ⟨⟨_, rfl⟩, ⟨_, rfl⟩⟩

/-- C7 witness: singleton envelopes at skip = 3. -/
theorem render_reports_count_and_range_witness :
    (∃ mid, renderProductsText 3
        (extractRows (⟨none, some [⟨some "P1", some "Widget", some "Tools"⟩]⟩ : Envelope Product)) =
      "Products " ++ natStr (3 + 1) ++ " to " ++
        natStr (3 + (extractRows (⟨none, some [⟨some "P1", some "Widget", some "Tools"⟩]⟩ : Envelope Product)).length) ++ ":\n\n" ++ mid ++
        "\n\nTotal: " ++ natStr (extractRows (⟨none, some [⟨some "P1", some "Widget", some "Tools"⟩]⟩ : Envelope Product)).length ++ " products") ∧
    (∃ mid, renderOrdersText 3
        (extractRows (⟨none, some [⟨some "S1", some "C1", some "10", some "EUR"⟩]⟩ : Envelope Order)) =
      "Sales Orders " ++ natStr (3 + 1) ++ " to " ++
        natStr (3 + (extractRows (⟨none, some [⟨some "S1", some "C1", some "10", some "EUR"⟩]⟩ : Envelope Order)).length) ++ ":\n\n" ++ mid ++
        "\n\nTotal: " ++ natStr (extractRows (⟨none, some [⟨some "S1", some "C1", some "10", some "EUR"⟩]⟩ : Envelope Order)).length ++ " orders") :=
  render_reports_count_and_range 3
    ⟨none, some [⟨some "P1", some "Widget", some "Tools"⟩]⟩
    ⟨none, some [⟨some "S1", some "C1", some "10", some "EUR"⟩]⟩
    (by decide) (by decide)

/-- C8 (code divergence): for the round-trip envelope
`{value:[{ProductID:"P1",Description:"Widget",Category:"Tools"}]}` with
top = 5, skip = 0 the handler renders the bullet as the three characters
U+00E2 U+20AC U+00A2 (the double-encoded bytes stored in the source file),
not as U+2022, so the output differs from the specified string exactly at
the bullet. -/
theorem get_products_render_mojibake_bullet :
    (getProductsHandler sampleConfig
        (fun _ => .ok ⟨none, some [⟨some "P1", some "Widget", some "Tools"⟩]⟩)
        5 0 none).1 =
      mkText "Products 1 to 1:\n\nâ€¢ P1 - Widget (Tools)\n\nTotal: 1 products" ∧
    ("Products 1 to 1:\n\nâ€¢ P1 - Widget (Tools)\n\nTotal: 1 products" : String) ≠
      "Products 1 to 1:\n\n• P1 - Widget (Tools)\n\nTotal: 1 products" := by
  exact ⟨by decide, by decide⟩

/-- C10: every schema-valid invocation of `get_sales_orders` takes the error
branch — the text is the prefixed TypeError for the missing
`sapService.get_sales_orders` method — and no backend request is issued. -/
theorem get_sales_orders_handler_always_error
    (get : String → Except AxiosError (Envelope Order))
    (top skip : Nat) (customerId : Option String) :
    (getSalesOrdersHandler get top skip customerId).2 = [] ∧
    (getSalesOrdersHandler get top skip customerId).1 =
      mkText ("Error fetching sales orders: " ++ salesOrdersTypeError) :=
  ⟨rfl, rfl⟩

/-! ## BTP destination path (sap-service.js, HTTP variant) -/

/-- The destination-service binding discovered by `xsenv`:
`url` is the OAuth token host, `uri` the destination API host. -/
structure Binding where
  url : String
  uri : String
  clientid : String
  clientsecret : String
deriving DecidableEq

/-- A `BTPDestinationService` instance: `destinationService` stays `null`
when the binding lookup in `initializeServices` failed. -/
structure BTPDestinationService where
  destinationService : Option Binding
deriving DecidableEq

/-- The error thrown by `getAccessToken` when the binding is absent. -/
def serviceNotAvailable : String := "Destination service not available"

/-- `BTPDestinationService.getAccessToken` (lines 128-145): the binding
check precedes the token POST, so a missing binding produces the error with
an empty request trace. -/
def getAccessToken (binding : Option Binding)
    (postToken : String → Except String String) :
    Except String String × List NetCall :=
  match binding with
  | none => (.error serviceNotAvailable, [])
  | some b =>
    let url := b.url ++ "/oauth/token"
    match postToken url with
    | .error e => (.error e, [⟨"POST", url⟩])
    | .ok tok => (.ok tok, [⟨"POST", url⟩])

/-- `destResponse.data.destinationConfiguration` of the destination lookup. -/
structure DestConfig where
  URL : String
deriving DecidableEq

/-- The TypeError raised after the destination-configuration fetch failed:
the catch only logs, then `destResponse.data` dereferences `undefined`. -/
def destRespUndefined : String :=
  "Cannot read properties of undefined (reading \x27data\x27)"

/-- The TypeError JS would raise reading `.uri` on a null binding; in
`callDestination` and `list_destinations` this sits behind a successful
`getAccessToken`, which already requires the binding, so it is unreachable. -/
def nullReadUri : String :=
  "Cannot read properties of null (reading \x27uri\x27)"

/-- `BTPDestinationService.callDestination` (lines 147-174): token exchange,
destination-configuration fetch, then the data GET on the resolved URL
(`baseUrl/entity`, or `baseUrl` when `entity` is empty).  The final response
body is modelled by its JSON text. -/
def callDestination (svc : BTPDestinationService)
    (postToken : String → Except String String)
    (getDest : String → Except String DestConfig)
    (getData : String → Except String String)
    (destinationName entity : String) :
    Except String String × List NetCall :=
  match getAccessToken svc.destinationService postToken with
  | (.error e, tr) => (.error e, tr)
  | (.ok _token, tr) =>
    match svc.destinationService with
    | none => (.error nullReadUri, tr)
    | some b =>
      let destUrl := b.uri ++ "/destination-configuration/v1/destinations/" ++
        destinationName
      match getDest destUrl with
      | .error _ => (.error destRespUndefined, tr ++ [⟨"GET", destUrl⟩])
      | .ok cfg =>
        let url := if entity = "" then cfg.URL else cfg.URL ++ "/" ++ entity
        match getData url with
        | .error e => (.error e, tr ++ [⟨"GET", destUrl⟩, ⟨"GET", url⟩])
        | .ok data => (.ok data, tr ++ [⟨"GET", destUrl⟩, ⟨"GET", url⟩])

/-- One record of the subaccount-destination listing; the three properties
the handler reads, modelled as present strings. -/
structure DestRecord where
  Name : String
  Type' : String
  URL : String
deriving DecidableEq

/-- The summary object `{name, type, url}` built by the map in
`list_destinations`. -/
structure DestSummary where
  name : String
  type : String
  url : String
deriving DecidableEq

/-- Four-digit lowercase hex, for JSON control-character escapes. -/
def hex4 (n : Nat) : String :=
  String.mk [Nat.digitChar (n / 4096 % 16), Nat.digitChar (n / 256 % 16),
    Nat.digitChar (n / 16 % 16), Nat.digitChar (n % 16)]

/-- `JSON.stringify` escaping of one character. -/
def jsonEscapeChar (c : Char) : String :=
  if c = '"' then "\\\""
  else if c = '\\' then "\\\\"
  else if c = '\x08' then "\\b"
  else if c = '\x09' then "\\t"
  else if c = '\x0a' then "\\n"
  else if c = '\x0c' then "\\f"
  else if c = '\x0d' then "\\r"
  else if c.toNat < 32 then "\\u" ++ hex4 c.toNat
  else String.singleton c

/-- `JSON.stringify` of a string value. -/
def jsonString (s : String) : String :=
  "\"" ++ String.join (s.data.map jsonEscapeChar) ++ "\""

/-- One element of `JSON.stringify(destinations, null, 2)`. -/
def jsonDestObj (d : DestSummary) : String :=
  "  \x7b\n    \"name\": " ++ jsonString d.name ++ ",\n    \"type\": " ++
    jsonString d.type ++ ",\n    \"url\": " ++ jsonString d.url ++ "\n  \x7d"

/-- `JSON.stringify(destinations, null, 2)` for the summary array. -/
def jsonStringifyDests (ds : List DestSummary) : String :=
  match ds with
  | [] => "[]"
  | _ => "[\n" ++ String.intercalate ",\n" (ds.map jsonDestObj) ++ "\n]"

/-- The `list_destinations` tool handler (sap-service.js lines 192-239).
`getAccessToken` is called first; the subaccount-destination GET follows on
`destinationService.uri` (reachable only with a binding present). -/
def listDestinationsHandler (btp : Option BTPDestinationService)
    (postToken : String → Except String String)
    (getDestList : String → Except String (List DestRecord)) :
    ToolResult × List NetCall :=
  match btp with
  | none =>
    (mkText "❌ BTP Destination Service not available. Check service binding.", [])
  | some svc =>
    match getAccessToken svc.destinationService postToken with
    | (.error e, tr) => (mkText ("❌ Error listing destinations: " ++ e), tr)
    | (.ok _tok, tr) =>
      match svc.destinationService with
      | none => (mkText ("❌ Error listing destinations: " ++ nullReadUri), tr)
      | some b =>
        let url := b.uri ++ "/destination-configuration/v1/subaccountDestinations"
        match getDestList url with
        | .error e =>
          (mkText ("❌ Error listing destinations: " ++ e), tr ++ [⟨"GET", url⟩])
        | .ok dests =>
          (mkText ("Available Destinations:\n" ++
            jsonStringifyDests (dests.map (fun d => ⟨d.Name, d.Type', d.URL⟩))),
           tr ++ [⟨"GET", url⟩])

/-- The `entity` enumeration of the `query_northwind` schema. -/
inductive NorthwindEntity where
  | Products
  | Customers
  | Orders
  | Categories
  | Suppliers
deriving DecidableEq

/-- The wire name of a Northwind entity. -/
def NorthwindEntity.render : NorthwindEntity → String
  | .Products => "Products"
  | .Customers => "Customers"
  | .Orders => "Orders"
  | .Categories => "Categories"
  | .Suppliers => "Suppliers"

/-- The `query_northwind` tool handler (sap-service.js lines 241-274).
`skip` is declared as an optional string and defaulted at the use site via
`skip || 0`; a missing `btpService` throws inside the try, rendering the
prefixed error.  The response body is modelled by its JSON text. -/
def queryNorthwindHandler (btp : Option BTPDestinationService)
    (postToken : String → Except String String)
    (getDest : String → Except String DestConfig)
    (getData : String → Except String String)
    (entity : NorthwindEntity) (top : Nat) (skip : Option String) :
    ToolResult × List NetCall :=
  match btp with
  | none => (mkText "❌ Error querying Northwind: BTP services not available", [])
  | some svc =>
    let entityPath := entity.render ++ "?$top=" ++ natStr top ++ "&$skip=" ++
      jsOrStr skip "0"
    match callDestination svc postToken getDest getData "northwind" entityPath with
    | (.error e, tr) => (mkText ("❌ Error querying Northwind: " ++ e), tr)
    | (.ok result, tr) =>
      (mkText ("Northwind " ++ entity.render ++ " (first " ++ natStr top ++
        "):\n" ++ result), tr)

/-- C4: with the destination-service binding absent, `getAccessToken`,
`callDestination`, and the `list_destinations` and `query_northwind`
handlers all report the service-not-available error with an empty request
trace — the binding check precedes every HTTP request. -/
theorem destination_binding_absent_errors_before_io :
    (∀ postToken, getAccessToken none postToken = (.error serviceNotAvailable, [])) ∧
    (∀ postToken getDest getData name entity,
      callDestination ⟨none⟩ postToken getDest getData name entity =
        (.error serviceNotAvailable, [])) ∧
    (∀ postToken getDestList,
      listDestinationsHandler (some ⟨none⟩) postToken getDestList =
        (mkText ("❌ Error listing destinations: " ++ serviceNotAvailable), [])) ∧
    (∀ postToken getDest getData entity top skip,
      queryNorthwindHandler (some ⟨none⟩) postToken getDest getData entity top skip =
        (mkText ("❌ Error querying Northwind: " ++ serviceNotAvailable), [])) :=
  ⟨fun _ => rfl, fun _ _ _ _ _ => rfl, fun _ _ => rfl, fun _ _ _ _ _ _ => rfl⟩

/-- C1: every tool handler, for every argument mapping and every backend
outcome, returns a ToolResult with exactly one `{type:'text'}` content item
(so at least one, and no exception crosses the protocol boundary — the
handlers are total functions into ToolResult); and a thrown backend,
destination-resolver, or dispatch error is caught and rendered as
error-carrying text: `get_products` and `get_sales_orders` prefix
"Error fetching ...", `sap_health_check` reports status `error` with the
formatted message, and the BTP handlers prefix "❌ Error ...". -/
theorem tool_handlers_always_text_result :
    (∀ cfg get top skip search,
      ∃ t, (getProductsHandler cfg get top skip search).1 = mkText t) ∧
    (∀ get top skip customerId,
      ∃ t, (getSalesOrdersHandler get top skip customerId).1 = mkText t) ∧
    (∀ cfg get, ∃ t, (sapHealthCheckHandler cfg get).1 = mkText t) ∧
    (∀ btp postToken getDestList,
      ∃ t, (listDestinationsHandler btp postToken getDestList).1 = mkText t) ∧
    (∀ btp postToken getDest getData entity top skip,
      ∃ t, (queryNorthwindHandler btp postToken getDest getData entity top skip).1 =
        mkText t) ∧
    (∀ cfg ae top skip search,
      (getProductsHandler cfg (fun _ => .error ae) top skip search).1 =
        mkText ("Error fetching products: " ++ formatError ae)) ∧
    (∀ get top skip customerId,
      (getSalesOrdersHandler get top skip customerId).1 =
        mkText ("Error fetching sales orders: " ++ salesOrdersTypeError)) ∧
    (∀ cfg ae,
      (sapHealthCheckHandler cfg (fun _ => .error ae)).1 =
        mkText ("SAP Health Check:\nStatus: error\nMessage: SAP connection failed: " ++
          formatError ae)) ∧
    (∀ b e getDestList,
      (listDestinationsHandler (some ⟨some b⟩) (fun _ => .error e) getDestList).1 =
        mkText ("❌ Error listing destinations: " ++ e)) ∧
    (∀ b e getDest getData entity top skip,
      (queryNorthwindHandler (some ⟨some b⟩) (fun _ => .error e) getDest getData
          entity top skip).1 =
        mkText ("❌ Error querying Northwind: " ++ e)) := by
  refine ⟨?_, ?_, ?_, ?_, ?_, ?_, ?_, ?_, ?_, ?_⟩
  · intro cfg get top skip search
    rcases h : sapGetProducts cfg get top skip (search.getD "") with ⟨e | d, tr⟩
    · simp only [getProductsHandler, h]
      exact ⟨_, rfl⟩
    · simp only [getProductsHandler, h]
      split
      · exact ⟨_, rfl⟩
      · exact ⟨_, rfl⟩
  · intro get top skip customerId
    exact ⟨_, rfl⟩
  · intro cfg get
    rcases h : sapHealthCheck cfg get with ⟨⟨st, msg⟩, tr⟩
    simp only [sapHealthCheckHandler, h]
    exact ⟨_, rfl⟩
  · intro btp postToken getDestList
    rcases btp with _ | svc
    · exact ⟨_, rfl⟩
    · rcases h : getAccessToken svc.destinationService postToken with ⟨e | tok, tr⟩
      · simp only [listDestinationsHandler, h]
        exact ⟨_, rfl⟩
      · simp only [listDestinationsHandler, h]
        rcases hb : svc.destinationService with _ | b
        · simp only [hb]
          exact ⟨_, rfl⟩
        · simp only [hb]
          rcases hd : getDestList (b.uri ++ "/destination-configuration/v1/subaccountDestinations")
            with e | dests
          · simp only [hd]
            exact ⟨_, rfl⟩
          · simp only [hd]
            exact ⟨_, rfl⟩
  · intro btp postToken getDest getData entity top skip
    rcases btp with _ | svc
    · exact ⟨_, rfl⟩
    · rcases h : callDestination svc postToken getDest getData "northwind"
          (entity.render ++ "?$top=" ++ natStr top ++ "&$skip=" ++ jsOrStr skip "0")
        with ⟨e | r, tr⟩
      · simp only [queryNorthwindHandler, h]
        exact ⟨_, rfl⟩
      · simp only [queryNorthwindHandler, h]
        exact ⟨_, rfl⟩
  · intro cfg ae top skip search
    rfl
  · intro get top skip customerId
    rfl
  · intro cfg ae
    rfl
  · intro b e getDestList
    rfl
  · intro b e getDest getData entity top skip
    rfl

/-! ## Tool parameter schemas (zod declarations) -/

/-- A zod parameter declaration as the source writes it: a number chain
with optional min, max and default, an optional-or-required string, or an
enumeration.  (The sources use `z.number()`, never `z.number().int()`.) -/
inductive ParamSchema where
  | number (min max dflt : Option Nat) (opt : Bool)
  | string (opt : Bool)
  | enum (values : List String)
deriving DecidableEq

/-- The `get_products` schema (mcp-server.js lines 58-64). -/
def getProductsSchema : List (String × ParamSchema) :=
  [("top", .number (some 1) (some 100) (some 10) false),
   ("skip", .number (some 0) none (some 0) false),
   ("search", .string true)]

/-- The `get_sales_orders` schema (mcp-server.js lines 105-111). -/
def getSalesOrdersSchema : List (String × ParamSchema) :=
  [("top", .number (some 1) (some 100) (some 10) false),
   ("skip", .number (some 0) none (some 0) false),
   ("customerId", .string true)]

/-- The `query_northwind` schema (sap-service.js lines 244-248). -/
def queryNorthwindSchema : List (String × ParamSchema) :=
  [("entity", .enum ["Products", "Customers", "Orders", "Categories", "Suppliers"]),
   ("top", .number (some 1) (some 100) (some 5) false),
   ("skip", .string true)]

/-- Modelled from the claim C9 wording: the tool declares `top` as a numeric
parameter bounded [1,100] with default 10 and `skip` as a numeric parameter
with minimum 0 and default 0 (no upper bound is declared in any reference
schema). -/
def specPaginationParams (schema : List (String × ParamSchema)) : Prop :=
  schema.lookup "top" = some (.number (some 1) (some 100) (some 10) false) ∧
  schema.lookup "skip" = some (.number (some 0) none (some 0) false)

/-- C9 counterexample: not every pagination tool matches the claimed
declaration — `query_northwind` departs from it (top defaults to 5 and skip
is an optional string). -/
theorem pagination_schema_claim_false :
    ¬ (specPaginationParams getProductsSchema ∧
       specPaginationParams getSalesOrdersSchema ∧
       specPaginationParams queryNorthwindSchema) := by
  unfold specPaginationParams
  decide

/-- C9 amended: `get_products` and `get_sales_orders` declare top in [1,100]
with default 10 and skip ≥ 0 with default 0, while `query_northwind`
declares top in [1,100] with default 5 and skip as an optional string. -/
theorem pagination_schema_actual :
    specPaginationParams getProductsSchema ∧
    specPaginationParams getSalesOrdersSchema ∧
    queryNorthwindSchema.lookup "top" =
      some (.number (some 1) (some 100) (some 5) false) ∧
    queryNorthwindSchema.lookup "skip" = some (.string true) := by
  unfold specPaginationParams
  decide

end SAPMCP
